import Mathlib

/-!
Verification development for `src/examples/annotate_deployment.py`.

The script builds a fixed nginx Deployment descriptor, creates it in a
Kubernetes namespace, waits, reads it back, merges new metadata entries
into the existing ones with a merge-patch, waits again and reads the
final state.  This file gives a shallow embedding of the script:

* Python string-to-string dicts become association lists
  (`AnnotationMap`), with `{**existing, **new}` embedded as
  `mergeAnnotations` (insertion updates the value in place for a key
  already present, and appends new keys at the end, matching Python
  dict insertion-order semantics).
* The Kubernetes client objects (`V1Deployment` and friends) become
  plain structures holding exactly the fields the script touches.
* The remote control plane is an explicit collaborator `Env σ` over an
  abstract world `σ`; the concrete instance `clusterEnv` models the
  contract the design spec states for the collaborator (the kubernetes
  client library itself is not part of the repository).
* Each Python function (`create_deployment_object`, `create_deployment`,
  `annotate_deployment`, `main`) becomes a Lean function threading a
  `RunState` that records the world, the trace of issued calls and the
  log lines.  A Python exception that propagates is an `Option PyExc`
  result; `try/except ApiException` becomes a match that intercepts
  only `PyExc.apiException`.
-/

/-- A Python `dict[str, str]` as an association list in insertion order. -/
abbrev AnnotationMap := List (String × String)

/-- Lookup of a key, first (and for a genuine dict, only) occurrence. -/
def dictGet : AnnotationMap → String → Option String
  | [], _ => none
  | p :: rest, k => if p.1 = k then some p.2 else dictGet rest k

/-- Key-membership test of a Python dict. -/
def hasKey (d : AnnotationMap) (k : String) : Bool :=
  (dictGet d k).isSome

/-- Python dict insertion: overwrite in place when the key is present,
append at the end otherwise. -/
def dictInsert : AnnotationMap → String → String → AnnotationMap
  | [], k, v => [(k, v)]
  | p :: rest, k, v => if p.1 = k then (k, v) :: rest else p :: dictInsert rest k v

/-- The representation invariant of a Python dict: keys are distinct. -/
def NodupKeys (d : AnnotationMap) : Prop :=
  (d.map Prod.fst).Nodup

instance instDecidableNodupKeys (d : AnnotationMap) : Decidable (NodupKeys d) :=
  inferInstanceAs (Decidable ((d.map Prod.fst).Nodup))

/-- `{**existing_annotations, **new_annotations}` from
`annotate_deployment` (line 66): start from the existing entries and
insert every new entry, new values winning on key collision. -/
def mergeAnnotations (existing_annotations new_annotations : AnnotationMap) : AnnotationMap :=
  new_annotations.foldl (fun acc p => dictInsert acc p.1 p.2) existing_annotations

@[simp]
theorem mergeAnnotations_nil (E : AnnotationMap) : mergeAnnotations E [] = E := rfl

@[simp]
theorem mergeAnnotations_cons (E : AnnotationMap) (p : String × String) (rest : AnnotationMap) :
    mergeAnnotations E (p :: rest) = mergeAnnotations (dictInsert E p.1 p.2) rest := rfl

@[simp]
theorem hasKey_nil (k : String) : hasKey [] k = false := rfl

theorem hasKey_cons (p : String × String) (rest : AnnotationMap) (k : String) :
    hasKey (p :: rest) k = if p.1 = k then true else hasKey rest k := by
  by_cases h : p.1 = k <;> simp [hasKey, dictGet, h]

theorem hasKey_iff_mem (d : AnnotationMap) (k : String) :
    hasKey d k = true ↔ k ∈ d.map Prod.fst := by
  induction d with
  | nil => simp
  | cons p rest ih =>
      by_cases h : p.1 = k
      · simp [hasKey_cons, h]
      · simp [hasKey_cons, h, ih, Ne.symm h]

@[simp]
theorem dictGet_dictInsert_self (d : AnnotationMap) (k v : String) :
    dictGet (dictInsert d k v) k = some v := by
  induction d with
  | nil => simp [dictInsert, dictGet]
  | cons p rest ih =>
      by_cases h : p.1 = k
      · simp [dictInsert, h, dictGet]
      · simp [dictInsert, h, dictGet, ih]

theorem dictGet_dictInsert_ne (d : AnnotationMap) (k v k' : String) (h : k' ≠ k) :
    dictGet (dictInsert d k v) k' = dictGet d k' := by
  induction d with
  | nil => simp [dictInsert, dictGet, Ne.symm h]
  | cons p rest ih =>
      by_cases hp : p.1 = k
      · subst hp
        simp [dictInsert, dictGet, Ne.symm h, h]
      · by_cases hp' : p.1 = k'
        · simp [dictInsert, hp, dictGet, hp', h]
        · simp [dictInsert, hp, dictGet, hp', ih]

theorem keys_dictInsert_of_hasKey (d : AnnotationMap) (k v : String) (h : hasKey d k = true) :
    (dictInsert d k v).map Prod.fst = d.map Prod.fst := by
  induction d with
  | nil => simp at h
  | cons p rest ih =>
      by_cases hp : p.1 = k
      · simp [dictInsert, hp]
      · rw [hasKey_cons, if_neg hp] at h
        simp [dictInsert, hp, ih h]

theorem keys_dictInsert_of_not_hasKey (d : AnnotationMap) (k v : String)
    (h : hasKey d k = false) :
    (dictInsert d k v).map Prod.fst = d.map Prod.fst ++ [k] := by
  induction d with
  | nil => simp [dictInsert]
  | cons p rest ih =>
      rw [hasKey_cons] at h
      by_cases hp : p.1 = k
      · rw [if_pos hp] at h
        simp at h
      · rw [if_neg hp] at h
        simp [dictInsert, hp, ih h]

theorem nodupKeys_dictInsert (d : AnnotationMap) (k v : String) (h : NodupKeys d) :
    NodupKeys (dictInsert d k v) := by
  unfold NodupKeys at h ⊢
  cases hk : hasKey d k with
  | true => rw [keys_dictInsert_of_hasKey d k v hk]; exact h
  | false =>
      rw [keys_dictInsert_of_not_hasKey d k v hk]
      have hknot : k ∉ d.map Prod.fst := by
        intro hmem
        rw [← hasKey_iff_mem] at hmem
        rw [hk] at hmem
        exact Bool.false_ne_true hmem
      simp [List.nodup_append, h, hknot]

theorem nodupKeys_mergeAnnotations (E N : AnnotationMap) (hE : NodupKeys E) :
    NodupKeys (mergeAnnotations E N) := by
  induction N generalizing E with
  | nil => simpa using hE
  | cons p rest ih =>
      rw [mergeAnnotations_cons]
      exact ih _ (nodupKeys_dictInsert E p.1 p.2 hE)

theorem dictGet_mergeAnnotations_of_not_hasKey (E N : AnnotationMap) (k : String)
    (h : hasKey N k = false) :
    dictGet (mergeAnnotations E N) k = dictGet E k := by
  induction N generalizing E with
  | nil => rfl
  | cons p rest ih =>
      rw [hasKey_cons] at h
      by_cases hp : p.1 = k
      · rw [if_pos hp] at h
        simp at h
      · rw [if_neg hp] at h
        rw [mergeAnnotations_cons, ih _ h, dictGet_dictInsert_ne _ _ _ _ (Ne.symm hp)]

theorem dictGet_mergeAnnotations_of_hasKey (E N : AnnotationMap) (k : String)
    (hN : NodupKeys N) (h : hasKey N k = true) :
    dictGet (mergeAnnotations E N) k = dictGet N k := by
  induction N generalizing E with
  | nil => simp at h
  | cons p rest ih =>
      obtain ⟨hhead, htail⟩ := List.nodup_cons.mp hN
      rw [mergeAnnotations_cons]
      by_cases hk : hasKey rest k = true
      · have hne : p.1 ≠ k := by
          intro he
          exact hhead (he ▸ (hasKey_iff_mem rest k).mp hk)
        rw [ih _ htail hk, dictGet, if_neg hne]
      · rw [hasKey_cons] at h
        by_cases hp : p.1 = k
        · rw [dictGet_mergeAnnotations_of_not_hasKey _ _ _ (Bool.not_eq_true _ ▸ hk)]
          rw [hp, dictGet_dictInsert_self, dictGet, if_pos hp]
        · rw [if_neg hp] at h
          exact absurd h hk

theorem dictGet_of_mem (N : AnnotationMap) (k v : String) (hN : NodupKeys N)
    (h : (k, v) ∈ N) : dictGet N k = some v := by
  induction N with
  | nil => simp at h
  | cons p rest ih =>
      obtain ⟨hhead, htail⟩ := List.nodup_cons.mp hN
      rcases List.mem_cons.mp h with he | hrest
      · rw [← he, dictGet, if_pos rfl]
      · have hk : k ∈ rest.map Prod.fst := List.mem_map.mpr ⟨(k, v), hrest, rfl⟩
        have hne : p.1 ≠ k := fun he => hhead (he ▸ hk)
        rw [dictGet, if_neg hne]
        exact ih htail hrest

theorem dictInsert_of_dictGet (d : AnnotationMap) (k v : String) (hd : NodupKeys d)
    (h : dictGet d k = some v) : dictInsert d k v = d := by
  induction d with
  | nil => simp [dictGet] at h
  | cons p rest ih =>
      obtain ⟨hhead, htail⟩ := List.nodup_cons.mp hd
      obtain ⟨p1, p2⟩ := p
      by_cases hp : p1 = k
      · subst hp
        simp [dictGet] at h
        subst h
        simp [dictInsert]
      · simp [dictGet, hp] at h
        simp [dictInsert, hp, ih htail h]

theorem mergeAnnotations_eq_of_fixed (M N : AnnotationMap)
    (h : ∀ p ∈ N, dictInsert M p.1 p.2 = M) : mergeAnnotations M N = M := by
  induction N with
  | nil => rfl
  | cons p rest ih =>
      rw [mergeAnnotations_cons, h p (List.mem_cons_self p rest)]
      exact ih fun q hq => h q (List.mem_cons_of_mem p hq)

theorem dictInsert_of_not_hasKey (d : AnnotationMap) (k v : String)
    (h : hasKey d k = false) : dictInsert d k v = d ++ [(k, v)] := by
  induction d with
  | nil => simp [dictInsert]
  | cons p rest ih =>
      rw [hasKey_cons] at h
      by_cases hp : p.1 = k
      · rw [if_pos hp] at h
        simp at h
      · rw [if_neg hp] at h
        simp [dictInsert, hp, ih h]

theorem hasKey_append (d d' : AnnotationMap) (k : String) :
    hasKey (d ++ d') k = (hasKey d k || hasKey d' k) := by
  induction d with
  | nil => simp
  | cons p rest ih =>
      by_cases hp : p.1 = k <;> simp [hasKey_cons, hp, ih]

theorem mergeAnnotations_of_disjoint (d N : AnnotationMap) (hN : NodupKeys N)
    (h : ∀ p ∈ N, hasKey d p.1 = false) : mergeAnnotations d N = d ++ N := by
  induction N generalizing d with
  | nil => simp
  | cons p rest ih =>
      obtain ⟨hhead, htail⟩ := List.nodup_cons.mp hN
      rw [mergeAnnotations_cons, dictInsert_of_not_hasKey d p.1 p.2
        (h p (List.mem_cons_self p rest))]
      rw [ih _ htail ?_]
      · simp
      · intro q hq
        rw [hasKey_append]
        have h1 : hasKey d q.1 = false := h q (List.mem_cons_of_mem p hq)
        have h2 : hasKey [(p.1, p.2)] q.1 = false := by
          have hqk : q.1 ∈ rest.map Prod.fst := List.mem_map.mpr ⟨q, hq, rfl⟩
          have hne : p.1 ≠ q.1 := fun he => hhead (he ▸ hqk)
          simp [hasKey_cons, hne]
        rw [h1, h2]
        rfl

theorem mergeAnnotations_nil_left (N : AnnotationMap) (hN : NodupKeys N) :
    mergeAnnotations [] N = N := by
  rw [mergeAnnotations_of_disjoint [] N hN fun p _ => rfl]
  rfl

/-! ## The Kubernetes client objects used by the script -/

/-- `client.V1ContainerPort(container_port=80)`. -/
structure V1ContainerPort where
  container_port : Nat
deriving DecidableEq

/-- `client.V1Container(...)` with the fields the script sets. -/
structure V1Container where
  name : String
  image : Option String
  image_pull_policy : Option String
  ports : List V1ContainerPort
deriving DecidableEq

/-- `client.V1ObjectMeta(...)`: the script sets `name` on the deployment,
`labels` on the pod template, and reads `annotations` back. -/
structure V1ObjectMeta where
  name : Option String
  labels : Option AnnotationMap
  annotations : Option AnnotationMap
deriving DecidableEq

/-- `client.V1LabelSelector(match_labels=...)`. -/
structure V1LabelSelector where
  match_labels : Option AnnotationMap
deriving DecidableEq

/-- `client.V1PodSpec(containers=[...])`. -/
structure V1PodSpec where
  containers : List V1Container
deriving DecidableEq

/-- `client.V1PodTemplateSpec(metadata=..., spec=...)`. -/
structure V1PodTemplateSpec where
  metadata : V1ObjectMeta
  spec : V1PodSpec
deriving DecidableEq

/-- `client.V1DeploymentSpec(replicas=..., selector=..., template=...)`. -/
structure V1DeploymentSpec where
  replicas : Option Nat
  selector : V1LabelSelector
  template : V1PodTemplateSpec
deriving DecidableEq

/-- `client.V1Deployment(api_version=..., kind=..., metadata=..., spec=...)`. -/
structure V1Deployment where
  api_version : String
  kind : String
  metadata : V1ObjectMeta
  spec : V1DeploymentSpec
deriving DecidableEq

/-- `create_deployment_object` (lines 15-45): the fixed nginx descriptor. -/
def create_deployment_object : V1Deployment :=
  let container : V1Container :=
    { name := "nginx-sample"
      image := some "nginx"
      image_pull_policy := some "IfNotPresent"
      ports := [{ container_port := 80 }] }
  let template : V1PodTemplateSpec :=
    { metadata := { name := none, labels := some [("app", "nginx")], annotations := none }
      spec := { containers := [container] } }
  let spec : V1DeploymentSpec :=
    { replicas := some 1
      selector := { match_labels := some [("app", "nginx")] }
      template := template }
  { api_version := "apps/v1"
    kind := "Deployment"
    metadata := { name := some "deploy-nginx", labels := none, annotations := none }
    spec := spec }

/-! ## The patch body and the collaborator's merge-patch semantics -/

/-- The JSON patch document sent to `patch_namespaced_deployment`: every
patchable field is optional, absent fields are untouched by the remote
merge-patch.  The script's `patch_body` (lines 68-72) populates only
`metadata_annotations`. -/
structure DeploymentPatch where
  metadata_name : Option String
  metadata_labels : Option AnnotationMap
  metadata_annotations : Option AnnotationMap
  spec_replicas : Option Nat
  spec_selector : Option V1LabelSelector
  spec_template : Option V1PodTemplateSpec
deriving DecidableEq

/-- `patch_body = {"metadata": {"annotations": updated_annotations}}`:
the partial document naming only the metadata annotations. -/
def annotationPatchBody (updated_annotations : AnnotationMap) : DeploymentPatch :=
  { metadata_name := none
    metadata_labels := none
    metadata_annotations := some updated_annotations
    spec_replicas := none
    spec_selector := none
    spec_template := none }

/-- A field-level merge-patch update: take the patch's value when present,
keep the old value otherwise. -/
def patchOpt (p old : Option α) : Option α :=
  match p with
  | some x => some x
  | none => old

/-- As `patchOpt`, for a field the resource always carries. -/
def patchField (p : Option α) (old : α) : α :=
  match p with
  | some x => x
  | none => old

/-- Modelled from the spec: the merge-patch semantics of the remote
`patch` endpoint (the kubernetes control plane, which is not part of the
repository): "a partial update that only touches specified fields,
leaving all others unchanged". -/
def applyPatch (d : V1Deployment) (p : DeploymentPatch) : V1Deployment :=
  { api_version := d.api_version
    kind := d.kind
    metadata :=
      { name := patchOpt p.metadata_name d.metadata.name
        labels := patchOpt p.metadata_labels d.metadata.labels
        annotations := patchOpt p.metadata_annotations d.metadata.annotations }
    spec :=
      { replicas := patchOpt p.spec_replicas d.spec.replicas
        selector := patchField p.spec_selector d.spec.selector
        template := patchField p.spec_template d.spec.template } }

/-! ## Exceptions, the remote collaborator, and the run state -/

/-- A Python exception: `client.exceptions.ApiException` (carrying the
HTTP status) or any other exception.  The script's `except` clauses
intercept only `apiException`. -/
inductive PyExc where
  | apiException (status : Nat)
  | otherError (msg : String)
deriving DecidableEq

/-- One outbound interaction of the script: a remote API call or a
`time.sleep`. -/
inductive Call where
  | createCall (namespace0 : String) (body : V1Deployment)
  | readCall (deployment_name namespace0 : String)
  | patchCall (deployment_name namespace0 : String) (body : DeploymentPatch)
  | sleepCall (seconds : Nat)
deriving DecidableEq

/-- Modelled from the spec: the remote resource-management collaborator
(section 6 of the design spec; the kubernetes client and cluster are not
part of the repository).  Each operation acts on an abstract world `σ`
and either succeeds or raises an exception. -/
structure Env (σ : Type) where
  loadKubeConfig : σ → σ × Except PyExc Unit
  createNamespacedDeployment : σ → String → V1Deployment → σ × Except PyExc Unit
  readNamespacedDeployment : σ → String → String → σ × Except PyExc V1Deployment
  patchNamespacedDeployment : σ → String → String → DeploymentPatch → σ × Except PyExc Unit

/-- The observable state of one run: the collaborator's world, the trace
of issued calls, and the emitted log lines. -/
structure RunState (σ : Type) where
  world : σ
  trace : List Call
  logs : List String

/-- Record one issued call and its effect on the world. -/
def afterCall (s : RunState σ) (w : σ) (c : Call) : RunState σ :=
  { world := w, trace := s.trace ++ [c], logs := s.logs }

/-- Emit a log line. -/
def addLog (s : RunState σ) (m : String) : RunState σ :=
  { s with logs := s.logs ++ [m] }

/-- `time.sleep(n)`: blocks, issues no remote call. -/
def doSleep (s : RunState σ) (n : Nat) : RunState σ :=
  { s with trace := s.trace ++ [Call.sleepCall n] }

/-! ## The script's functions -/

/-- `create_deployment` (lines 48-56): issue the create call; an
`ApiException` is caught and logged, any other exception propagates. -/
def create_deployment (env : Env σ) (s : RunState σ) (namespace0 : String)
    (deployment_object : V1Deployment) : RunState σ × Option PyExc :=
  let s1 := afterCall s (env.createNamespacedDeployment s.world namespace0 deployment_object).1
    (Call.createCall namespace0 deployment_object)
  match (env.createNamespacedDeployment s.world namespace0 deployment_object).2 with
  | Except.ok _ => (addLog s1 "INFO: Deployment created", none)
  | Except.error (PyExc.apiException _) => (addLog s1 "ERROR: Error creating deployment", none)
  | Except.error e => (s1, some e)

/-- `annotate_deployment` (lines 59-80): read the deployment, merge its
existing metadata entries (absent treated as empty) with the new ones,
and patch with a body naming only the merged map.  An `ApiException`
from either call is caught and logged; anything else propagates, and a
failed read issues no patch. -/
def annotate_deployment (env : Env σ) (s : RunState σ) (deployment_name namespace0 : String)
    (new_annotations : AnnotationMap) : RunState σ × Option PyExc :=
  let s1 := afterCall s (env.readNamespacedDeployment s.world deployment_name namespace0).1
    (Call.readCall deployment_name namespace0)
  match (env.readNamespacedDeployment s.world deployment_name namespace0).2 with
  | Except.ok deployment =>
      let existing_annotations := deployment.metadata.annotations.getD []
      let updated_annotations := mergeAnnotations existing_annotations new_annotations
      let patch_body := annotationPatchBody updated_annotations
      let s2 := afterCall s1 (env.patchNamespacedDeployment s1.world deployment_name namespace0 patch_body).1
        (Call.patchCall deployment_name namespace0 patch_body)
      match (env.patchNamespacedDeployment s1.world deployment_name namespace0 patch_body).2 with
      | Except.ok _ => (addLog s2 "INFO: Annotations updated", none)
      | Except.error (PyExc.apiException _) => (addLog s2 "ERROR: Error annotating deployment", none)
      | Except.error e => (s2, some e)
  | Except.error (PyExc.apiException _) => (addLog s1 "ERROR: Error annotating deployment", none)
  | Except.error e => (s1, some e)

/-- The fixed delta of `main` (lines 99-102). -/
def mainNewAnnotations : AnnotationMap :=
  [("deployment.kubernetes.io/str", "nginx"), ("deployment.kubernetes.io/int", "5")]

/-- `main` (lines 83-108): load kube config, create, sleep, read, log,
annotate, sleep, read, log.  The two reads here are not wrapped in any
handler, so any exception they raise propagates; so does an exception
from config loading or a non-`ApiException` from the two steps. -/
def mainRun (env : Env σ) (w : σ) : RunState σ × Option PyExc :=
  let s0 : RunState σ := { world := (env.loadKubeConfig w).1, trace := [], logs := [] }
  match (env.loadKubeConfig w).2 with
  | Except.error e => (s0, some e)
  | Except.ok _ =>
    let step1 := create_deployment env s0 "default" create_deployment_object
    match step1.2 with
    | some e => (step1.1, some e)
    | none =>
      let s2 := doSleep step1.1 2
      let s3 := afterCall s2 (env.readNamespacedDeployment s2.world "deploy-nginx" "default").1
        (Call.readCall "deploy-nginx" "default")
      match (env.readNamespacedDeployment s2.world "deploy-nginx" "default").2 with
      | Except.error e => (s3, some e)
      | Except.ok _ =>
        let s3a := addLog s3 "INFO: Before annotation"
        let step2 := annotate_deployment env s3a "deploy-nginx" "default" mainNewAnnotations
        match step2.2 with
        | some e => (step2.1, some e)
        | none =>
          let s5 := doSleep step2.1 2
          let s6 := afterCall s5 (env.readNamespacedDeployment s5.world "deploy-nginx" "default").1
            (Call.readCall "deploy-nginx" "default")
          match (env.readNamespacedDeployment s5.world "deploy-nginx" "default").2 with
          | Except.error e => (s6, some e)
          | Except.ok _ => (addLog s6 "INFO: After annotation", none)

/-! ## The control plane modelled as a deterministic cluster -/

/-- The remote namespace: which deployment (if any) each name holds. -/
abbrev ClusterState := String → Option V1Deployment

/-- The namespace with no resources. -/
def emptyCluster : ClusterState := fun _ => none

/-- Store a deployment under a name. -/
def updateCluster (st : ClusterState) (n : String) (d : V1Deployment) : ClusterState :=
  fun x => if x = n then some d else st x

/-- Modelled from the spec: the collaborator contract of section 6 over an
explicit namespace (the cluster itself is not part of the repository).
Create fails 409 (conflict) on an existing name, read and patch fail 404
(not found) on a missing one, patch applies the merge-patch document. -/
def clusterEnv : Env ClusterState :=
  { loadKubeConfig := fun st => (st, Except.ok ())
    createNamespacedDeployment := fun st _ body =>
      match body.metadata.name with
      | none => (st, Except.error (PyExc.apiException 422))
      | some n =>
          if (st n).isSome then (st, Except.error (PyExc.apiException 409))
          else (updateCluster st n body, Except.ok ())
    readNamespacedDeployment := fun st n _ =>
      match st n with
      | some d => (st, Except.ok d)
      | none => (st, Except.error (PyExc.apiException 404))
    patchNamespacedDeployment := fun st n _ body =>
      match st n with
      | some d => (updateCluster st n (applyPatch d body), Except.ok ())
      | none => (st, Except.error (PyExc.apiException 404)) }

/-! ## Scripted collaborators used as concrete runs -/

/-- A collaborator whose reads fail 404 (resource never visible). -/
def envFail : Env Unit :=
  { loadKubeConfig := fun w => (w, Except.ok ())
    createNamespacedDeployment := fun w _ _ => (w, Except.ok ())
    readNamespacedDeployment := fun w _ _ => (w, Except.error (PyExc.apiException 404))
    patchNamespacedDeployment := fun w _ _ _ => (w, Except.ok ()) }

/-- A collaborator whose create fails with a non-API exception. -/
def envCreateBoom : Env Unit :=
  { loadKubeConfig := fun w => (w, Except.ok ())
    createNamespacedDeployment := fun w _ _ => (w, Except.error (PyExc.otherError "boom"))
    readNamespacedDeployment := fun w _ _ => (w, Except.ok create_deployment_object)
    patchNamespacedDeployment := fun w _ _ _ => (w, Except.ok ()) }

/-- A collaborator whose reads fail with a non-API exception. -/
def envReadBoom : Env Unit :=
  { loadKubeConfig := fun w => (w, Except.ok ())
    createNamespacedDeployment := fun w _ _ => (w, Except.ok ())
    readNamespacedDeployment := fun w _ _ => (w, Except.error (PyExc.otherError "net down"))
    patchNamespacedDeployment := fun w _ _ _ => (w, Except.ok ()) }

/-- A collaborator whose patch fails with a non-API exception. -/
def envPatchBoom : Env Unit :=
  { loadKubeConfig := fun w => (w, Except.ok ())
    createNamespacedDeployment := fun w _ _ => (w, Except.ok ())
    readNamespacedDeployment := fun w _ _ => (w, Except.ok create_deployment_object)
    patchNamespacedDeployment := fun w _ _ _ => (w, Except.error (PyExc.otherError "net down")) }

/-- A collaborator whose patch fails with an `ApiException`. -/
def envPatchConflict : Env Unit :=
  { loadKubeConfig := fun w => (w, Except.ok ())
    createNamespacedDeployment := fun w _ _ => (w, Except.ok ())
    readNamespacedDeployment := fun w _ _ => (w, Except.ok create_deployment_object)
    patchNamespacedDeployment := fun w _ _ _ => (w, Except.error (PyExc.apiException 409)) }

/-- A collaborator whose create fails with an `ApiException` and whose
other operations succeed. -/
def envApiCreateErr : Env Unit :=
  { loadKubeConfig := fun w => (w, Except.ok ())
    createNamespacedDeployment := fun w _ _ => (w, Except.error (PyExc.apiException 409))
    readNamespacedDeployment := fun w _ _ => (w, Except.ok create_deployment_object)
    patchNamespacedDeployment := fun w _ _ _ => (w, Except.ok ()) }

/-- A collaborator whose kube-config loading fails. -/
def envLoadBoom : Env Unit :=
  { loadKubeConfig := fun w => (w, Except.error (PyExc.otherError "no kubeconfig"))
    createNamespacedDeployment := fun w _ _ => (w, Except.ok ())
    readNamespacedDeployment := fun w _ _ => (w, Except.ok create_deployment_object)
    patchNamespacedDeployment := fun w _ _ _ => (w, Except.ok ()) }

/-- A collaborator that counts reads and fails only the third one (the
final read of `main`). -/
def envFailThirdRead : Env Nat :=
  { loadKubeConfig := fun n => (n, Except.ok ())
    createNamespacedDeployment := fun n _ _ => (n, Except.ok ())
    readNamespacedDeployment := fun n _ _ =>
      (n + 1, if n ≥ 2 then Except.error (PyExc.apiException 404)
              else Except.ok create_deployment_object)
    patchNamespacedDeployment := fun n _ _ _ => (n, Except.ok ()) }

/-- The complete call sequence of a fault-free run. -/
def fullTrace (body : DeploymentPatch) : List Call :=
  [Call.createCall "default" create_deployment_object,
   Call.sleepCall 2,
   Call.readCall "deploy-nginx" "default",
   Call.readCall "deploy-nginx" "default",
   Call.patchCall "deploy-nginx" "default" body,
   Call.sleepCall 2,
   Call.readCall "deploy-nginx" "default"]

/-! ## Trace lemmas about the embedded steps -/

theorem create_deployment_trace (σ : Type) (env : Env σ) (s : RunState σ) (ns : String)
    (b : V1Deployment) :
    (create_deployment env s ns b).1.trace = s.trace ++ [Call.createCall ns b] := by
  simp only [create_deployment]
  split <;> simp [afterCall, addLog]

theorem annotate_deployment_trace (σ : Type) (env : Env σ) (s : RunState σ)
    (n ns : String) (a : AnnotationMap) :
    (annotate_deployment env s n ns a).1.trace = s.trace ++ [Call.readCall n ns]
    ∨ ∃ body, (annotate_deployment env s n ns a).1.trace
        = s.trace ++ [Call.readCall n ns, Call.patchCall n ns body] := by
  simp only [annotate_deployment]
  split
  · rename_i deployment heq
    right
    refine ⟨annotationPatchBody
      (mergeAnnotations (deployment.metadata.annotations.getD []) a), ?_⟩
    split <;> simp [afterCall, addLog]
  · left
    simp [afterCall, addLog]
  · left
    simp [afterCall, addLog]

/-! ## The claims -/

/-- C1: for annotation maps `E` and `N`, the merge computed by
`annotate_deployment` maps every key present in both to `N`'s value and
every key present only in `E` to `E`'s value. -/
theorem merge_override_rule (E N : AnnotationMap) (k : String)
    (_hE : NodupKeys E) (hN : NodupKeys N) :
    (hasKey E k = true → hasKey N k = true →
      dictGet (mergeAnnotations E N) k = dictGet N k)
    ∧ (hasKey E k = true → hasKey N k = false →
      dictGet (mergeAnnotations E N) k = dictGet E k) := by
  constructor
  · intro _ h2
    exact dictGet_mergeAnnotations_of_hasKey E N k hN h2
  · intro _ h2
    exact dictGet_mergeAnnotations_of_not_hasKey E N k h2

theorem merge_override_rule_witness :
    dictGet (mergeAnnotations [("a", "1"), ("b", "2")] [("b", "9"), ("c", "3")]) "b"
      = dictGet [("b", "9"), ("c", "3")] "b"
    ∧ dictGet (mergeAnnotations [("a", "1"), ("b", "2")] [("b", "9"), ("c", "3")]) "a"
      = dictGet [("a", "1"), ("b", "2")] "a" :=
  ⟨(merge_override_rule [("a", "1"), ("b", "2")] [("b", "9"), ("c", "3")] "b"
      (by decide) (by decide)).1 (by decide) (by decide),
   (merge_override_rule [("a", "1"), ("b", "2")] [("b", "9"), ("c", "3")] "a"
      (by decide) (by decide)).2 (by decide) (by decide)⟩

/-- C2: the annotation merge is idempotent in the new map:
`merge(E, N) = merge(merge(E, N), N)`. -/
theorem merge_idempotent (E N : AnnotationMap) (hE : NodupKeys E) (hN : NodupKeys N) :
    mergeAnnotations E N = mergeAnnotations (mergeAnnotations E N) N := by
  have hM : NodupKeys (mergeAnnotations E N) := nodupKeys_mergeAnnotations E N hE
  refine (mergeAnnotations_eq_of_fixed (mergeAnnotations E N) N ?_).symm
  intro p hp
  obtain ⟨k0, v0⟩ := p
  have hv : dictGet N k0 = some v0 := dictGet_of_mem N k0 v0 hN hp
  have hk : hasKey N k0 = true := by simp [hasKey, hv]
  have hMv : dictGet (mergeAnnotations E N) k0 = some v0 := by
    rw [dictGet_mergeAnnotations_of_hasKey E N k0 hN hk, hv]
  exact dictInsert_of_dictGet _ k0 v0 hM hMv

theorem merge_idempotent_witness :
    mergeAnnotations [("a", "1"), ("b", "2")] [("b", "9"), ("c", "3")]
      = mergeAnnotations (mergeAnnotations [("a", "1"), ("b", "2")] [("b", "9"), ("c", "3")])
          [("b", "9"), ("c", "3")] :=
  merge_idempotent [("a", "1"), ("b", "2")] [("b", "9"), ("c", "3")] (by decide) (by decide)

/-- C5: the descriptor builder is a constant: it returns the fixed,
fully-populated descriptor with name deploy-nginx, image nginx, one
replica, container port 80, and selector labels equal to the pod
template labels. -/
theorem create_deployment_object_fixed :
    create_deployment_object.metadata.name = some "deploy-nginx"
    ∧ create_deployment_object.api_version = "apps/v1"
    ∧ create_deployment_object.kind = "Deployment"
    ∧ create_deployment_object.spec.replicas = some 1
    ∧ create_deployment_object.spec.selector.match_labels = some [("app", "nginx")]
    ∧ create_deployment_object.spec.template.metadata.labels = some [("app", "nginx")]
    ∧ create_deployment_object.spec.selector.match_labels
        = create_deployment_object.spec.template.metadata.labels
    ∧ create_deployment_object.spec.template.spec.containers
        = [{ name := "nginx-sample", image := some "nginx",
             image_pull_policy := some "IfNotPresent",
             ports := [{ container_port := 80 }] }] :=
  ⟨rfl, rfl, rfl, rfl, rfl, rfl, rfl, rfl⟩

/-- C7: creating a deployment whose name is already taken in the
namespace fails with the conflict `ApiException` (HTTP 409), the cluster
is left unchanged (no second resource appears), and the step catches and
logs the error. -/
theorem create_existing_name_conflict (st : ClusterState) (t : List Call) (l : List String)
    (ns n : String) (b d : V1Deployment)
    (hn : b.metadata.name = some n) (hd : st n = some d) :
    (clusterEnv.createNamespacedDeployment st ns b).2
      = Except.error (PyExc.apiException 409)
    ∧ (create_deployment clusterEnv { world := st, trace := t, logs := l } ns b).1.world = st
    ∧ (create_deployment clusterEnv { world := st, trace := t, logs := l } ns b).2 = none
    ∧ (create_deployment clusterEnv { world := st, trace := t, logs := l } ns b).1.logs
        = l ++ ["ERROR: Error creating deployment"] := by
  have hresp : clusterEnv.createNamespacedDeployment st ns b
      = (st, Except.error (PyExc.apiException 409)) := by
    simp [clusterEnv, hn, hd]
  refine ⟨by rw [hresp], ?_, ?_, ?_⟩ <;>
    simp [create_deployment, hresp, afterCall, addLog]

theorem create_existing_name_conflict_witness :
    (clusterEnv.createNamespacedDeployment
        (updateCluster emptyCluster "deploy-nginx" create_deployment_object)
        "default" create_deployment_object).2
      = Except.error (PyExc.apiException 409) :=
  (create_existing_name_conflict
    (updateCluster emptyCluster "deploy-nginx" create_deployment_object) [] []
    "default" "deploy-nginx" create_deployment_object create_deployment_object
    rfl (by decide)).1

/-- C4: when the annotate operation succeeds (the named resource exists
in the cluster), the resource afterwards carries exactly the merged
annotation set; an absent existing set is treated as the empty map, in
which case the result equals the new map. -/
theorem annotate_success_sets_merged (st : ClusterState) (t : List Call) (l : List String)
    (n ns : String) (a : AnnotationMap) (d : V1Deployment)
    (hd : st n = some d) (ha : NodupKeys a) :
    (annotate_deployment clusterEnv { world := st, trace := t, logs := l } n ns a).1.world n
      = some (applyPatch d (annotationPatchBody
          (mergeAnnotations (d.metadata.annotations.getD []) a)))
    ∧ (applyPatch d (annotationPatchBody
          (mergeAnnotations (d.metadata.annotations.getD []) a))).metadata.annotations
        = some (mergeAnnotations (d.metadata.annotations.getD []) a)
    ∧ (annotate_deployment clusterEnv { world := st, trace := t, logs := l } n ns a).2 = none
    ∧ (d.metadata.annotations = none →
        mergeAnnotations (d.metadata.annotations.getD []) a = a) := by
  have hread : clusterEnv.readNamespacedDeployment st n ns = (st, Except.ok d) := by
    simp [clusterEnv, hd]
  have hpatch : ∀ body, clusterEnv.patchNamespacedDeployment st n ns body
      = (updateCluster st n (applyPatch d body), Except.ok ()) := by
    intro body
    simp [clusterEnv, hd]
  refine ⟨?_, rfl, ?_, ?_⟩
  · simp [annotate_deployment, hread, hpatch, afterCall, addLog, updateCluster]
  · simp [annotate_deployment, hread, hpatch, afterCall, addLog]
  · intro h0
    rw [h0]
    exact mergeAnnotations_nil_left a ha

theorem annotate_success_sets_merged_witness :
    (annotate_deployment clusterEnv
        { world := updateCluster emptyCluster "deploy-nginx" create_deployment_object,
          trace := [], logs := [] }
        "deploy-nginx" "default" mainNewAnnotations).1.world "deploy-nginx"
      = some (applyPatch create_deployment_object (annotationPatchBody
          (mergeAnnotations (create_deployment_object.metadata.annotations.getD [])
            mainNewAnnotations))) :=
  (annotate_success_sets_merged
    (updateCluster emptyCluster "deploy-nginx" create_deployment_object) [] []
    "deploy-nginx" "default" mainNewAnnotations create_deployment_object
    (by decide) (by decide)).1

/-- C9: when the read phase of `annotate_deployment` raises, no patch is
submitted: the step issues only the read call, and over the cluster
collaborator a failed read leaves the remote state unchanged. -/
theorem annotate_read_failure_no_patch (σ : Type) (env : Env σ) (s : RunState σ)
    (n ns : String) (a : AnnotationMap) (e : PyExc)
    (h : (env.readNamespacedDeployment s.world n ns).2 = Except.error e)
    (st : ClusterState) (hst : st n = none) :
    (annotate_deployment env s n ns a).1.trace = s.trace ++ [Call.readCall n ns]
    ∧ (annotate_deployment clusterEnv { world := st, trace := [], logs := [] } n ns a).1.world
        = st
    ∧ (annotate_deployment clusterEnv { world := st, trace := [], logs := [] } n ns a).1.trace
        = [Call.readCall n ns] := by
  have hread : clusterEnv.readNamespacedDeployment st n ns
      = (st, Except.error (PyExc.apiException 404)) := by
    simp [clusterEnv, hst]
  refine ⟨?_, ?_, ?_⟩
  · cases e <;> simp [annotate_deployment, h, afterCall, addLog]
  · simp [annotate_deployment, hread, afterCall, addLog]
  · simp [annotate_deployment, hread, afterCall, addLog]

theorem annotate_read_failure_no_patch_witness :
    (annotate_deployment envFail { world := (), trace := [], logs := [] }
        "deploy-nginx" "default" mainNewAnnotations).1.trace
      = [Call.readCall "deploy-nginx" "default"] :=
  (annotate_read_failure_no_patch Unit envFail { world := (), trace := [], logs := [] }
    "deploy-nginx" "default" mainNewAnnotations (PyExc.apiException 404) rfl
    emptyCluster rfl).1

/-- C3: the patch submitted by `annotate_deployment` is exactly the
partial document naming only the merged metadata annotations, and
applying it as a merge-patch leaves the replica count, selector,
template (hence image and containers), name, labels, api version and
kind of the remote resource unchanged. -/
theorem annotate_patch_body_frame (σ : Type) (env : Env σ) (s : RunState σ)
    (n ns : String) (a : AnnotationMap) (d dr : V1Deployment)
    (h : (env.readNamespacedDeployment s.world n ns).2 = Except.ok d) :
    (annotate_deployment env s n ns a).1.trace
      = s.trace ++ [Call.readCall n ns, Call.patchCall n ns
          (annotationPatchBody (mergeAnnotations (d.metadata.annotations.getD []) a))]
    ∧ (annotationPatchBody
        (mergeAnnotations (d.metadata.annotations.getD []) a)).metadata_name = none
    ∧ (annotationPatchBody
        (mergeAnnotations (d.metadata.annotations.getD []) a)).metadata_labels = none
    ∧ (annotationPatchBody
        (mergeAnnotations (d.metadata.annotations.getD []) a)).spec_replicas = none
    ∧ (annotationPatchBody
        (mergeAnnotations (d.metadata.annotations.getD []) a)).spec_selector = none
    ∧ (annotationPatchBody
        (mergeAnnotations (d.metadata.annotations.getD []) a)).spec_template = none
    ∧ (annotationPatchBody
        (mergeAnnotations (d.metadata.annotations.getD []) a)).metadata_annotations
        = some (mergeAnnotations (d.metadata.annotations.getD []) a)
    ∧ (applyPatch dr (annotationPatchBody
        (mergeAnnotations (d.metadata.annotations.getD []) a))).spec.replicas
        = dr.spec.replicas
    ∧ (applyPatch dr (annotationPatchBody
        (mergeAnnotations (d.metadata.annotations.getD []) a))).spec.selector
        = dr.spec.selector
    ∧ (applyPatch dr (annotationPatchBody
        (mergeAnnotations (d.metadata.annotations.getD []) a))).spec.template
        = dr.spec.template
    ∧ (applyPatch dr (annotationPatchBody
        (mergeAnnotations (d.metadata.annotations.getD []) a))).spec.template.spec.containers
        = dr.spec.template.spec.containers
    ∧ (applyPatch dr (annotationPatchBody
        (mergeAnnotations (d.metadata.annotations.getD []) a))).metadata.name
        = dr.metadata.name
    ∧ (applyPatch dr (annotationPatchBody
        (mergeAnnotations (d.metadata.annotations.getD []) a))).metadata.labels
        = dr.metadata.labels
    ∧ (applyPatch dr (annotationPatchBody
        (mergeAnnotations (d.metadata.annotations.getD []) a))).api_version
        = dr.api_version
    ∧ (applyPatch dr (annotationPatchBody
        (mergeAnnotations (d.metadata.annotations.getD []) a))).kind
        = dr.kind := by
  refine ⟨?_, rfl, rfl, rfl, rfl, rfl, rfl, rfl, rfl, rfl, rfl, rfl, rfl, rfl, rfl⟩
  simp only [annotate_deployment, h]
  split <;> simp [afterCall, addLog]

theorem annotate_patch_body_frame_witness :
    (annotate_deployment envApiCreateErr { world := (), trace := [], logs := [] }
        "deploy-nginx" "default" mainNewAnnotations).1.trace
      = [Call.readCall "deploy-nginx" "default",
         Call.patchCall "deploy-nginx" "default"
           (annotationPatchBody
             (mergeAnnotations (create_deployment_object.metadata.annotations.getD [])
               mainNewAnnotations))] :=
  (annotate_patch_body_frame Unit envApiCreateErr { world := (), trace := [], logs := [] }
    "deploy-nginx" "default" mainNewAnnotations create_deployment_object
    create_deployment_object rfl).1

/-- C6 counterexample: a non-API error raised by the create step is not
caught — the run aborts at once and no further operation (not even the
first read) is issued, contradicting the claim that every error is
caught at its operation and execution proceeds regardless. -/
theorem main_aborts_on_create_error :
    (mainRun envCreateBoom ()).2 = some (PyExc.otherError "boom")
    ∧ (mainRun envCreateBoom ()).1.trace
        = [Call.createCall "default" create_deployment_object] := by
  decide

/-- C6 amended: every `ApiException` raised by the create call, or by
the read/patch calls inside the annotate operation, is caught at that
operation, logged, and the step abandoned with execution proceeding to
the next step (a run whose create fails with an `ApiException` still
completes the whole sequence); other errors propagate. -/
theorem api_exceptions_caught_and_run_continues (σ : Type) (env : Env σ)
    (s : RunState σ) (ns n : String) (b : V1Deployment) (a : AnnotationMap)
    (c1 c2 c3 : Nat) (d : V1Deployment) :
    ((env.createNamespacedDeployment s.world ns b).2
        = Except.error (PyExc.apiException c1) →
      (create_deployment env s ns b).2 = none
      ∧ (create_deployment env s ns b).1.logs
          = s.logs ++ ["ERROR: Error creating deployment"])
    ∧ ((env.readNamespacedDeployment s.world n ns).2
        = Except.error (PyExc.apiException c2) →
      (annotate_deployment env s n ns a).2 = none
      ∧ (annotate_deployment env s n ns a).1.logs
          = s.logs ++ ["ERROR: Error annotating deployment"])
    ∧ ((env.readNamespacedDeployment s.world n ns).2 = Except.ok d →
      (env.patchNamespacedDeployment (env.readNamespacedDeployment s.world n ns).1 n ns
          (annotationPatchBody (mergeAnnotations (d.metadata.annotations.getD []) a))).2
        = Except.error (PyExc.apiException c3) →
      (annotate_deployment env s n ns a).2 = none
      ∧ (annotate_deployment env s n ns a).1.logs
          = s.logs ++ ["ERROR: Error annotating deployment"])
    ∧ ((mainRun envApiCreateErr ()).2 = none
      ∧ (mainRun envApiCreateErr ()).1.trace
          = fullTrace (annotationPatchBody mainNewAnnotations)) := by
  refine ⟨fun h => ?_, fun h => ?_, fun h hp => ?_, by decide⟩
  · constructor <;> simp [create_deployment, h, afterCall, addLog]
  · constructor <;> simp [annotate_deployment, h, afterCall, addLog]
  · constructor <;> simp [annotate_deployment, h, hp, afterCall, addLog]

theorem api_exceptions_caught_and_run_continues_witness :
    (create_deployment envApiCreateErr { world := (), trace := [], logs := [] }
        "default" create_deployment_object).2 = none
    ∧ (annotate_deployment envFail { world := (), trace := [], logs := [] }
        "deploy-nginx" "default" mainNewAnnotations).2 = none
    ∧ (annotate_deployment envPatchConflict { world := (), trace := [], logs := [] }
        "deploy-nginx" "default" mainNewAnnotations).2 = none :=
  ⟨((api_exceptions_caught_and_run_continues Unit envApiCreateErr
      { world := (), trace := [], logs := [] } "default" "deploy-nginx"
      create_deployment_object mainNewAnnotations 409 404 409
      create_deployment_object).1 rfl).1,
   ((api_exceptions_caught_and_run_continues Unit envFail
      { world := (), trace := [], logs := [] } "default" "deploy-nginx"
      create_deployment_object mainNewAnnotations 409 404 409
      create_deployment_object).2.1 rfl).1,
   ((api_exceptions_caught_and_run_continues Unit envPatchConflict
      { world := (), trace := [], logs := [] } "default" "deploy-nginx"
      create_deployment_object mainNewAnnotations 409 404 409
      create_deployment_object).2.2.1 rfl rfl).1⟩

/-- C8 counterexample: with a collaborator whose reads fail 404, the run
issues only create, wait and the first read, then aborts — operations
are skipped, contradicting the claim that every run issues the complete
sequence. -/
theorem main_skips_operations_on_read_error :
    (mainRun envFail ()).1.trace
      = [Call.createCall "default" create_deployment_object, Call.sleepCall 2,
         Call.readCall "deploy-nginx" "default"]
    ∧ (mainRun envFail ()).2 = some (PyExc.apiException 404) := by
  decide


theorem trace5_sublist (bb : DeploymentPatch) :
    List.Sublist
      [Call.createCall "default" create_deployment_object, Call.sleepCall 2,
        Call.readCall "deploy-nginx" "default", Call.readCall "deploy-nginx" "default",
        Call.patchCall "deploy-nginx" "default" bb]
      (fullTrace bb) :=
  List.sublist_append_left
    [Call.createCall "default" create_deployment_object, Call.sleepCall 2,
      Call.readCall "deploy-nginx" "default", Call.readCall "deploy-nginx" "default",
      Call.patchCall "deploy-nginx" "default" bb]
    [Call.sleepCall 2, Call.readCall "deploy-nginx" "default"]

/-- C8 amended: every run issues its operations strictly sequentially
and in order — the trace of any run is an order-preserving subsequence
of create, wait, read, read, patch, wait, read — and a run in which
every call succeeds (here: against a fresh cluster) issues exactly the
complete sequence; a propagating error aborts the remaining operations
and a caught read error inside annotate skips its patch. -/
theorem mainRun_sequential_trace :
    (∀ (σ : Type) (env : Env σ) (w : σ),
      ∃ body, List.Sublist (mainRun env w).1.trace (fullTrace body))
    ∧ (mainRun clusterEnv emptyCluster).1.trace
        = fullTrace (annotationPatchBody mainNewAnnotations)
    ∧ (mainRun clusterEnv emptyCluster).2 = none := by
  refine ⟨?_, by decide, by decide⟩
  intro σ env w
  simp only [mainRun]
  split
  · exact ⟨annotationPatchBody [], List.nil_sublist _⟩
  · split
    · refine ⟨annotationPatchBody [], ?_⟩
      simp only [create_deployment_trace]
      decide
    · split
      · refine ⟨annotationPatchBody [], ?_⟩
        simp only [afterCall, doSleep, create_deployment_trace]
        decide
      · have hOr := annotate_deployment_trace σ env
          (addLog (afterCall (doSleep
            (create_deployment env
              { world := (env.loadKubeConfig w).1, trace := [], logs := [] }
              "default" create_deployment_object).1 2)
            (env.readNamespacedDeployment (doSleep
              (create_deployment env
                { world := (env.loadKubeConfig w).1, trace := [], logs := [] }
                "default" create_deployment_object).1 2).world
              "deploy-nginx" "default").1
            (Call.readCall "deploy-nginx" "default")) "INFO: Before annotation")
          "deploy-nginx" "default" mainNewAnnotations
        split
        · rcases hOr with h | ⟨bb, h⟩
          · refine ⟨annotationPatchBody [], ?_⟩
            simp only [addLog, afterCall, doSleep, create_deployment_trace] at h ⊢
            rw [h]
            decide
          · refine ⟨bb, ?_⟩
            simp only [addLog, afterCall, doSleep, create_deployment_trace] at h ⊢
            rw [h]
            exact trace5_sublist bb
        · rcases hOr with h | ⟨bb, h⟩
          · refine ⟨annotationPatchBody [], ?_⟩
            split <;>
              · simp only [addLog, afterCall, doSleep, create_deployment_trace] at h ⊢
                rw [h]
                decide
          · refine ⟨bb, ?_⟩
            split <;>
              · simp only [addLog, afterCall, doSleep, create_deployment_trace] at h ⊢
                rw [h]
                exact List.Sublist.refl _

/-- C10: only `ApiException` is caught by the create and annotate steps;
any other exception — and any error at all from kube-config loading or
from the two unguarded reads in `mainRun` — propagates and aborts the
process. -/
theorem only_api_exceptions_caught (σ : Type) (env : Env σ) (s : RunState σ)
    (ns n : String) (b : V1Deployment) (a : AnnotationMap) (m : String)
    (e : PyExc) (d : V1Deployment) (w : σ) :
    ((env.createNamespacedDeployment s.world ns b).2
        = Except.error (PyExc.otherError m) →
      (create_deployment env s ns b).2 = some (PyExc.otherError m))
    ∧ ((env.readNamespacedDeployment s.world n ns).2
        = Except.error (PyExc.otherError m) →
      (annotate_deployment env s n ns a).2 = some (PyExc.otherError m))
    ∧ ((env.readNamespacedDeployment s.world n ns).2 = Except.ok d →
      (env.patchNamespacedDeployment (env.readNamespacedDeployment s.world n ns).1 n ns
          (annotationPatchBody (mergeAnnotations (d.metadata.annotations.getD []) a))).2
        = Except.error (PyExc.otherError m) →
      (annotate_deployment env s n ns a).2 = some (PyExc.otherError m))
    ∧ ((env.loadKubeConfig w).2 = Except.error e →
      (mainRun env w).2 = some e ∧ (mainRun env w).1.trace = [])
    ∧ ((mainRun envFail ()).2 = some (PyExc.apiException 404))
    ∧ ((mainRun envFailThirdRead 0).2 = some (PyExc.apiException 404)
      ∧ (mainRun envFailThirdRead 0).1.trace
          = fullTrace (annotationPatchBody mainNewAnnotations)) := by
  refine ⟨fun h => ?_, fun h => ?_, fun h hp => ?_, fun h => ?_, by decide, by decide⟩
  · simp [create_deployment, h, afterCall, addLog]
  · simp [annotate_deployment, h, afterCall, addLog]
  · simp [annotate_deployment, h, hp, afterCall, addLog]
  · constructor <;> simp [mainRun, h]

theorem only_api_exceptions_caught_witness :
    (create_deployment envCreateBoom { world := (), trace := [], logs := [] }
        "default" create_deployment_object).2 = some (PyExc.otherError "boom")
    ∧ (annotate_deployment envReadBoom { world := (), trace := [], logs := [] }
        "deploy-nginx" "default" mainNewAnnotations).2
        = some (PyExc.otherError "net down")
    ∧ (annotate_deployment envPatchBoom { world := (), trace := [], logs := [] }
        "deploy-nginx" "default" mainNewAnnotations).2
        = some (PyExc.otherError "net down")
    ∧ (mainRun envLoadBoom ()).2 = some (PyExc.otherError "no kubeconfig") :=
  ⟨(only_api_exceptions_caught Unit envCreateBoom
      { world := (), trace := [], logs := [] } "default" "deploy-nginx"
      create_deployment_object mainNewAnnotations "boom" (PyExc.otherError "boom")
      create_deployment_object ()).1 rfl,
   (only_api_exceptions_caught Unit envReadBoom
      { world := (), trace := [], logs := [] } "default" "deploy-nginx"
      create_deployment_object mainNewAnnotations "net down" (PyExc.otherError "net down")
      create_deployment_object ()).2.1 rfl,
   (only_api_exceptions_caught Unit envPatchBoom
      { world := (), trace := [], logs := [] } "default" "deploy-nginx"
      create_deployment_object mainNewAnnotations "net down" (PyExc.otherError "net down")
      create_deployment_object ()).2.2.1 rfl rfl,
   ((only_api_exceptions_caught Unit envLoadBoom
      { world := (), trace := [], logs := [] } "default" "deploy-nginx"
      create_deployment_object mainNewAnnotations "x"
      (PyExc.otherError "no kubeconfig") create_deployment_object ()).2.2.2.1 rfl).1⟩
